import Mathlib

/-!
Verification of the AutoScroll feed-advancing extension.

The development shallowly embeds the algorithmic core of the repository:
the end-of-playback detector (EndDetector in the core module), the advance
orchestrator (ScrollManager.scrollToNext and the content-script loop in
triggerAutoScroll), the active-item scorer and selector
(BaseAdapter._scoreVideo / findActiveVideo and the Instagram adapter
_findBestVideo in content.js), the safety gate
(SafetyController.canAutoScroll) and the content-script testScroll message
handler. Times, durations and geometry are rationals; machine events are
explicit signal values; the stateful detector is a state-passing step
function.
-/

/-- Options of the EndDetector (see the constructor of EndDetector):
epsilon = 0.5 seconds before the end counts as near end, loopThreshold = 2
seconds for a loop jump, minDuration = 1 second minimal processable
duration. -/
structure DetOptions where
  epsilon : ℚ
  loopThreshold : ℚ
  minDuration : ℚ
deriving DecidableEq

/-- Default options of the EndDetector. -/
def defOpts : DetOptions := ⟨1/2, 2, 1⟩

/-- Snapshot of the attached media element as the detector reads it:
durationValid models the JavaScript test (duration truthy and finite),
durationVal the numeric duration when valid, currentTime the playback
position, ended the native ended flag. -/
structure VideoSnap where
  durationValid : Bool
  durationVal : ℚ
  currentTime : ℚ
  ended : Bool
deriving DecidableEq

/-- Mutable state of one playback session of the EndDetector:
lastKnownTime, the wasNearEnd flag and the triggered flag. -/
structure DetState where
  lastKnownTime : ℚ
  wasNearEnd : Bool
  triggered : Bool
deriving DecidableEq

/-- The state just after attach or reset with position 0. -/
def freshDet : DetState := ⟨0, false, false⟩

/-- EndDetector.reset: clears triggered and wasNearEnd and reloads
lastKnownTime from the current position. -/
def reset (cur : ℚ) : DetState := ⟨cur, false, false⟩

/-- The reasons the detector can report to its end-callback. -/
inductive Reason where
  | ended_event
  | threshold_reached
  | loop_detected
  | pause_at_end
deriving DecidableEq

/-- EndDetector._handleEnded combined with _triggerEnd: if already
triggered the signal is ignored, otherwise the callback fires with reason
ended_event. The handler inspects no property of the media element. -/
def handleEnded (s : DetState) : DetState × Option Reason :=
  if s.triggered = true then (s, none)
  else ({ s with triggered := true }, some Reason.ended_event)

/-- EndDetector._handleTimeUpdate combined with _triggerEnd: skips when
triggered or when the duration is invalid or below minDuration; detects a
loop jump (position below loopThreshold after lastKnownTime was within
loopThreshold of the duration while wasNearEnd); sets wasNearEnd within
epsilon of the end and fires threshold_reached within 0.15 seconds of the
end; otherwise records the position. -/
def handleTimeUpdate (o : DetOptions) (s : DetState) (v : VideoSnap) :
    DetState × Option Reason :=
  if s.triggered = true then (s, none)
  else if v.durationValid = false ∨ v.durationVal < o.minDuration then (s, none)
  else if v.currentTime < o.loopThreshold ∧
      s.lastKnownTime > v.durationVal - o.loopThreshold ∧ s.wasNearEnd = true then
    ({ s with triggered := true, lastKnownTime := v.currentTime },
      some Reason.loop_detected)
  else if v.durationVal - v.currentTime < o.epsilon then
    if v.durationVal - v.currentTime < 3/20 then
      ({ s with wasNearEnd := true, triggered := true }, some Reason.threshold_reached)
    else ({ s with wasNearEnd := true, lastKnownTime := v.currentTime }, none)
  else ({ s with lastKnownTime := v.currentTime }, none)

/-- EndDetector._handlePause combined with _triggerEnd: ignored when
triggered; when the duration is truthy and finite, a pause within 0.5
seconds of the end with the native ended flag set fires pause_at_end. -/
def handlePause (s : DetState) (v : VideoSnap) : DetState × Option Reason :=
  if s.triggered = true then (s, none)
  else if v.durationValid = true then
    if v.durationVal - v.currentTime < 1/2 ∧ v.ended = true then
      ({ s with triggered := true }, some Reason.pause_at_end)
    else (s, none)
  else (s, none)

/-- The qualifying playback signals of the detector: the native ended
event, a position update, and a pause event, each carrying the current
snapshot of the media element. -/
inductive Signal where
  | endedEv (v : VideoSnap)
  | timeUpdate (v : VideoSnap)
  | pauseEv (v : VideoSnap)

/-- Dispatch of one signal to the matching handler. -/
def step (o : DetOptions) (s : DetState) : Signal → DetState × Option Reason
  | Signal.endedEv _ => handleEnded s
  | Signal.timeUpdate v => handleTimeUpdate o s v
  | Signal.pauseEv v => handlePause s v

/-- Process a list of signals, returning the final state and the list of
reasons with which the end-callback was invoked, in order. -/
def runSignals (o : DetOptions) (s : DetState) : List Signal → DetState × List Reason
  | [] => (s, [])
  | sig :: rest =>
    ((runSignals o (step o s sig).1 rest).1,
      (step o s sig).2.toList ++ (runSignals o (step o s sig).1 rest).2)

/-- Snapshot at position t of a 10-second video with a valid duration. -/
def vidAt (t : ℚ) : VideoSnap := ⟨true, 10, t, false⟩

/-- Snapshot of a media element whose duration is unknown (falsy or
non-finite) and whose native ended flag is set. -/
def noDurationVid : VideoSnap := ⟨false, 0, 0, true⟩

/-- What happens when the orchestrator executes one advance method:
the method throws (the per-method catch swallows it), the re-run of the
active-item detector afterwards observes a changed item, or it observes no
change. -/
inductive MethodOutcome where
  | throws
  | changes
  | noChange
deriving DecidableEq

/-- A mock advance method of a platform adapter: its name and its fixed
behaviour when executed. -/
structure MockMethod where
  name : String
  outcome : MethodOutcome
deriving DecidableEq

/-- Result record of ScrollManager.scrollToNext. -/
structure ScrollResult where
  success : Bool
  reason : Option String := none
  method : Option String := none
  attempt : Option Nat := none
deriving DecidableEq

/-- Inner method loop of ScrollManager.scrollToNext for a single attempt:
executes the methods in order, recording each executed method name; a
throwing method is caught and the loop continues; a method after which the
detector observes a changed item returns success with the method name and
the one-based attempt number; a method without an observed change falls
through to the next method. -/
def tryMethods (attempt : Nat) : List MockMethod → Option ScrollResult × List String
  | [] => (none, [])
  | m :: rest =>
    match m.outcome with
    | MethodOutcome.throws =>
        ((tryMethods attempt rest).1, m.name :: (tryMethods attempt rest).2)
    | MethodOutcome.noChange =>
        ((tryMethods attempt rest).1, m.name :: (tryMethods attempt rest).2)
    | MethodOutcome.changes =>
        (some { success := true, method := some m.name, attempt := some (attempt + 1) },
          [m.name])

/-- Outer attempt loop of ScrollManager.scrollToNext: runs the method loop
for each attempt index, stopping at the first success; when every attempt
is exhausted the overall result is failure with reason
all_methods_failed. -/
def runAttempts (methods : List MockMethod) : Nat → Nat → ScrollResult × List String
  | 0, _ => ({ success := false, reason := some "all_methods_failed" }, [])
  | k + 1, attempt =>
    match (tryMethods attempt methods).1 with
    | some r => (r, (tryMethods attempt methods).2)
    | none =>
        ((runAttempts methods k (attempt + 1)).1,
          (tryMethods attempt methods).2 ++ (runAttempts methods k (attempt + 1)).2)

/-- ScrollManager.scrollToNext: rejects a re-entrant call while the
boolean scrollLock is held with success false and reason scroll_locked and
executes nothing; otherwise runs the attempt loop with the configured
retryAttempts. The second component is the list of executed method names
in execution order. -/
def scrollToNext (retryAttempts : Nat) (methods : List MockMethod) (locked : Bool) :
    ScrollResult × List String :=
  if locked = true then ({ success := false, reason := some "scroll_locked" }, [])
  else runAttempts methods retryAttempts 0

/-- The trace of r failed attempts over one list of method names. -/
def repTrace (r : Nat) (l : List String) : List String :=
  match r with
  | 0 => []
  | k + 1 => l ++ repTrace k l

/-- Bounding rectangle of a candidate element in viewport coordinates, as
getBoundingClientRect reports it. -/
structure Rect where
  top : ℚ
  bottom : ℚ
  left : ℚ
  rght : ℚ
  width : ℚ
  height : ℚ
deriving DecidableEq

/-- A candidate playable element as the scorers read it: geometry, paused
flag, readiness level, and duration (validity plus value). -/
structure VideoEl where
  rect : Rect
  paused : Bool
  readyState : Nat
  durationValid : Bool
  durationVal : ℚ
deriving DecidableEq

/-- Viewport dimensions (window.innerHeight and window.innerWidth). -/
structure Viewport where
  height : ℚ
  width : ℚ
deriving DecidableEq

/-- BaseAdapter._scoreVideo: returns zero for a candidate whose rectangle
is entirely above, below, left or right of the viewport or has zero width
or height; otherwise a weighted sum of the visible fraction (0.5), a
playing bonus (0.25 when not paused with readyState at least 2), a valid
positive duration bonus (0.1) and a centre-proximity bonus (0.15). -/
def scoreVideo (vw : Viewport) (v : VideoEl) : ℚ :=
  if v.rect.bottom < 0 ∨ v.rect.top > vw.height then 0
  else if v.rect.rght < 0 ∨ v.rect.left > vw.width then 0
  else if v.rect.width = 0 ∨ v.rect.height = 0 then 0
  else
    (if v.rect.height > 0 then
        max 0 (min vw.height v.rect.bottom - max 0 v.rect.top) / v.rect.height
      else 0) * (1/2)
    + (if v.paused = false ∧ 2 ≤ v.readyState then 1/4 else 0)
    + (if v.durationValid = true ∧ 0 < v.durationVal then 1/10 else 0)
    + (1 - min (|v.rect.top + v.rect.height / 2 - vw.height / 2| / vw.height) 1) * (3/20)

/-- One fold step of the best-score loop in BaseAdapter.findActiveVideo:
keep the candidate whenever its score strictly exceeds the best so far. -/
def baseStep (vw : Viewport) (acc : Option VideoEl × ℚ) (v : VideoEl) :
    Option VideoEl × ℚ :=
  if scoreVideo vw v > acc.2 then (some v, scoreVideo vw v) else acc

/-- BaseAdapter.findActiveVideo: none for an empty candidate list, the
sole element of a singleton list, and otherwise the best-scoring candidate
provided its score reaches the 0.5 acceptance threshold. -/
def findActiveVideo (vw : Viewport) (videos : List VideoEl) : Option VideoEl :=
  if videos.length = 0 then none
  else if videos.length = 1 then videos.head?
  else if (videos.foldl (baseStep vw) (none, 0)).2 ≥ 1/2 then
    (videos.foldl (baseStep vw) (none, 0)).1
  else none

/-- Scoring body of InstagramAdapter._findBestVideo in the content script:
visible fraction (0.4), playing bonus (0.3 when not paused with readyState
at least 2), centre-proximity bonus (0.2) and duration bonus (0.1 for a
valid duration above one second). No early return excludes candidates
outside the viewport. -/
def igScore (vw : Viewport) (v : VideoEl) : ℚ :=
  (if v.rect.height > 0 then
      max 0 (min vw.height v.rect.bottom - max 0 v.rect.top) / v.rect.height
    else 0) * (2/5)
  + (if v.paused = false ∧ 2 ≤ v.readyState then 3/10 else 0)
  + (1 - min (|v.rect.top + v.rect.height / 2 - vw.height / 2| / vw.height) 1) * (1/5)
  + (if v.durationValid = true ∧ 1 < v.durationVal then 1/10 else 0)

/-- One iteration of the loop in InstagramAdapter._findBestVideo: a
candidate narrower than 100 or shorter than 100 is skipped before scoring;
otherwise it replaces the best when its score strictly exceeds it. -/
def igStep (vw : Viewport) (acc : Option VideoEl × ℚ) (v : VideoEl) :
    Option VideoEl × ℚ :=
  if v.rect.width < 100 ∨ v.rect.height < 100 then acc
  else if igScore vw v > acc.2 then (some v, igScore vw v) else acc

/-- InstagramAdapter._findBestVideo: the best-scoring candidate of the
list when its score strictly exceeds 0.3, otherwise none. -/
def igFindBestVideo (vw : Viewport) (videos : List VideoEl) : Option VideoEl :=
  if (videos.foldl (igStep vw) (none, 0)).2 > 3/10 then
    (videos.foldl (igStep vw) (none, 0)).1
  else none

/-- Safety options of SafetyController. -/
structure SafetyOptions where
  stopOnTabInactive : Bool
  stopOnManualScroll : Bool
  pauseOnInteraction : Bool
  manualScrollCooldown : Nat
deriving DecidableEq

/-- Environment-derived safety state of SafetyController, with the last
manual scroll time in milliseconds. -/
structure SafetyState where
  tabActive : Bool
  userScrolling : Bool
  userInteracting : Bool
  lastManualScrollTime : Nat
deriving DecidableEq

/-- Result of SafetyController.canAutoScroll. -/
structure GateResult where
  allowed : Bool
  reason : Option String := none
deriving DecidableEq

/-- SafetyController.canAutoScroll evaluated at time now: denies with
tab_inactive when stopOnTabInactive is on and the tab is hidden, with
user_scrolling and scroll_cooldown when stopOnManualScroll is on, with
user_interacting when pauseOnInteraction is on; otherwise allows. -/
def canAutoScroll (o : SafetyOptions) (s : SafetyState) (now : Nat) : GateResult :=
  if o.stopOnTabInactive = true ∧ s.tabActive = false then
    { allowed := false, reason := some "tab_inactive" }
  else if o.stopOnManualScroll = true ∧ s.userScrolling = true then
    { allowed := false, reason := some "user_scrolling" }
  else if o.pauseOnInteraction = true ∧ s.userInteracting = true then
    { allowed := false, reason := some "user_interacting" }
  else if o.stopOnManualScroll = true ∧
      now - s.lastManualScrollTime < o.manualScrollCooldown then
    { allowed := false, reason := some "scroll_cooldown" }
  else { allowed := true }

/-- Inner method loop of triggerAutoScroll in the content script: true as
soon as a method leaves the detector observing a changed item; a throwing
method is caught and the loop continues. -/
def tryMethodsContent : List MockMethod → Bool
  | [] => false
  | m :: rest =>
    match m.outcome with
    | MethodOutcome.changes => true
    | MethodOutcome.throws => tryMethodsContent rest
    | MethodOutcome.noChange => tryMethodsContent rest

/-- Attempt loop of triggerAutoScroll: repeats the method loop up to the
attempt budget, stopping at the first success. -/
def attemptLoop (methods : List MockMethod) : Nat → Bool
  | 0 => false
  | k + 1 => if tryMethodsContent methods = true then true else attemptLoop methods k

/-- The inputs triggerAutoScroll in the content script reads: the settings
flags of its pre-flight checks, the scroll lock, the pause flag, the tab
visibility, the retry budget and the adapter advance methods. -/
structure TriggerCtx where
  globalEnabled : Bool
  siteEnabled : Bool
  scrollLock : Bool
  isPaused : Bool
  stopOnTabInactive : Bool
  documentHidden : Bool
  retryAttempts : Nat
  methods : List MockMethod

/-- triggerAutoScroll in the content script, as its effect on the session
scroll counter: pre-flight checks return without change (global disabled,
site disabled, scroll lock held, paused, or tab hidden with
stopOnTabInactive); otherwise the method loop runs with the retry budget
(a falsy budget meaning 3) and the counter increments exactly on success.
The Boolean result is whether an advance succeeded. -/
def triggerAutoScroll (ctx : TriggerCtx) (scrollCount : Nat) : Nat × Bool :=
  if ctx.globalEnabled = false then (scrollCount, false)
  else if ctx.siteEnabled = false then (scrollCount, false)
  else if ctx.scrollLock = true then (scrollCount, false)
  else if ctx.isPaused = true then (scrollCount, false)
  else if ctx.stopOnTabInactive = true ∧ ctx.documentHidden = true then
    (scrollCount, false)
  else if attemptLoop ctx.methods (if ctx.retryAttempts = 0 then 3 else ctx.retryAttempts)
      = true then
    (scrollCount + 1, true)
  else (scrollCount, false)

/-- Response record of the content-script message handler. -/
structure MsgResponse where
  success : Bool
  scrollCount : Nat
deriving DecidableEq

/-- The testScroll branch of handleMessage: runs triggerAutoScroll and
then always responds success true with whatever the scroll counter is
afterwards. -/
def handleTestScroll (ctx : TriggerCtx) (scrollCount : Nat) : MsgResponse :=
  { success := true, scrollCount := (triggerAutoScroll ctx scrollCount).1 }

/-- A 1000 by 600 viewport used by the concrete examples. -/
def vwEx : Viewport := ⟨1000, 600⟩

/-- A playing candidate with a valid ten-second duration whose rectangle
lies entirely below the viewport (top 2000 against a height-1000
viewport). -/
def vOffscreen : VideoEl := ⟨⟨2000, 2500, 0, 400, 400, 500⟩, false, 4, true, 10⟩

/-- A candidate whose rectangle lies entirely above the viewport (bottom
below zero). -/
def vAboveView : VideoEl := ⟨⟨-500, -10, 0, 200, 200, 490⟩, false, 4, true, 10⟩

/-- Safety options with the foreground requirement on and every other
suppression off. -/
def soOn : SafetyOptions := ⟨true, false, false, 2000⟩

/-- Safety options with the foreground requirement off and every other
suppression off. -/
def soOff : SafetyOptions := ⟨false, false, false, 2000⟩

/-- Safety state of a backgrounded tab with no recent manual input. -/
def stBg : SafetyState := ⟨false, false, false, 0⟩

/-- A trigger context that passes every pre-flight check but whose only
advance method never changes the active item. -/
def ctx0 : TriggerCtx :=
  ⟨true, true, false, false, false, false, 2, [⟨"m1", MethodOutcome.noChange⟩]⟩

/-- When the triggered flag is set, every qualifying signal is ignored:
the state is unchanged and the callback is not invoked. -/
theorem step_triggered_eq (o : DetOptions) (s : DetState) (sig : Signal)
    (h : s.triggered = true) : step o s sig = (s, none) := by
  cases sig <;> simp [step, handleEnded, handleTimeUpdate, handlePause, h]

/-- After one signal, either the callback did not fire and the triggered
flag is unchanged, or the triggered flag is set. -/
theorem step_trig (o : DetOptions) (s : DetState) (sig : Signal) :
    ((step o s sig).2 = none ∧ (step o s sig).1.triggered = s.triggered) ∨
      (step o s sig).1.triggered = true := by
  cases sig <;>
    simp only [step, handleEnded, handleTimeUpdate, handlePause] <;>
    repeat' split
  all_goals first
    | exact Or.inl ⟨rfl, rfl⟩
    | exact Or.inr rfl

/-- From a state whose triggered flag is set, a run of qualifying signals
never invokes the callback. -/
theorem runSignals_of_triggered (o : DetOptions) (t : DetState) (l : List Signal)
    (h : t.triggered = true) : (runSignals o t l).2 = [] := by
  induction l generalizing t with
  | nil => simp [runSignals]
  | cons sig rest ih =>
    simp only [runSignals, step_triggered_eq o t sig h, Option.toList_none,
      List.nil_append]
    exact ih t h

/-- Any run of qualifying signals invokes the end-callback at most once. -/
theorem runSignals_length_le (o : DetOptions) (t : DetState) (l : List Signal) :
    (runSignals o t l).2.length ≤ 1 := by
  induction l generalizing t with
  | nil => simp [runSignals]
  | cons sig rest ih =>
    cases h2 : (step o t sig).2 with
    | none => simpa [runSignals, h2] using ih (step o t sig).1
    | some r =>
      have hTrigTrue : (step o t sig).1.triggered = true := by
        rcases step_trig o t sig with ⟨hs, _⟩ | ht
        · rw [h2] at hs; exact absurd hs (by simp)
        · exact ht
      have hrest := runSignals_of_triggered o (step o t sig).1 rest hTrigTrue
      simp [runSignals, h2, hrest]

/-- Claim C1: the end-of-playback detector invokes its end-callback at
most once between reset calls. After reset the triggered flag is clear and
any run of qualifying signals (native ended event, position updates with
their threshold and loop paths, pause events) fires at most once; more
generally, from a state whose triggered flag is already set, such a run
fires zero times, so the bound is one from an untriggered state and zero
from a fired one. -/
theorem endDetector_fires_at_most_once (o : DetOptions) (cur : ℚ) (s : DetState)
    (sigs : List Signal) :
    (runSignals o (reset cur) sigs).2.length ≤ 1 ∧
      (runSignals o s sigs).2.length ≤ if s.triggered then 0 else 1 := by
  refine ⟨runSignals_length_le o (reset cur) sigs, ?_⟩
  cases h : s.triggered
  · simpa [h] using runSignals_length_le o s sigs
  · simp [h, runSignals_of_triggered o s sigs h]

/-- Claim C3: for a session over a ten-second item, the position sequence
9.6 then 0.1 first sets the wasNearEnd flag and then fires the
end-callback exactly with reason loop_detected, while the sequence 5 then
0.1, which never visits a near-end position, fires nothing. -/
theorem loopDetection_concrete :
    (runSignals defOpts freshDet
        [Signal.timeUpdate (vidAt (48/5)), Signal.timeUpdate (vidAt (1/10))]).2 =
      [Reason.loop_detected] ∧
    (step defOpts freshDet (Signal.timeUpdate (vidAt (48/5)))).1.wasNearEnd = true ∧
    (runSignals defOpts freshDet
        [Signal.timeUpdate (vidAt 5), Signal.timeUpdate (vidAt (1/10))]).2 = [] := by
  refine ⟨?_, ?_, ?_⟩ <;>
    norm_num [runSignals, step, handleTimeUpdate, defOpts, vidAt, freshDet]

/-- Claim C5, counterexample: a session attached to an item whose
duration is unknown does not ignore the native ended event: from a fresh
state the ended handler invokes the end-callback with reason ended_event,
because the handler inspects no property of the media element. This
refutes the claim that such sessions ignore all incoming signals. -/
theorem endedEvent_fires_without_duration_cx :
    (step defOpts freshDet (Signal.endedEv noDurationVid)).2 = some Reason.ended_event ∧
      noDurationVid.durationValid = false := by
  exact ⟨by norm_num [step, handleEnded, freshDet], rfl⟩

/-- Claim C5, amended: position-update signals are ignored when the
duration is unknown, non-finite or below the one-second floor, and pause
signals are ignored when the duration is unknown or non-finite (the floor
is not checked there); the native ended event is handled without any
duration check and fires from any untriggered state. -/
theorem invalidDuration_ignores_timeupdate (s : DetState) (v : VideoSnap)
    (h : v.durationValid = false ∨ v.durationVal < 1) :
    handleTimeUpdate defOpts s v = (s, none) ∧
      (v.durationValid = false → handlePause s v = (s, none)) ∧
      (s.triggered = false → (handleEnded s).2 = some Reason.ended_event) := by
  refine ⟨?_, ?_, ?_⟩
  · unfold handleTimeUpdate
    split
    · rfl
    · have hc : v.durationValid = false ∨ v.durationVal < defOpts.minDuration := by
        simpa [defOpts] using h
      rw [if_pos hc]
  · intro hd
    unfold handlePause
    split
    · rfl
    · rw [hd]
      simp
  · intro ht
    simp [handleEnded, ht]

/-- Claim C5, amended, witness at a concrete invalid-duration snapshot. -/
theorem invalidDuration_ignores_timeupdate_w :
    handleTimeUpdate defOpts freshDet noDurationVid = (freshDet, none) ∧
      (noDurationVid.durationValid = false →
        handlePause freshDet noDurationVid = (freshDet, none)) ∧
      (freshDet.triggered = false →
        (handleEnded freshDet).2 = some Reason.ended_event) :=
  invalidDuration_ignores_timeupdate freshDet noDurationVid (Or.inl rfl)

/-- When no method of the list leaves the detector observing a changed
item, one pass of the method loop reports no success and its trace is the
full list of method names: a throwing method is caught and does not stop
the pass. -/
theorem tryMethods_no_change (a : Nat) (ms : List MockMethod)
    (h : ∀ m ∈ ms, m.outcome ≠ MethodOutcome.changes) :
    tryMethods a ms = (none, ms.map MockMethod.name) := by
  induction ms with
  | nil => rfl
  | cons m rest ih =>
    have hm := h m (List.mem_cons_self m rest)
    have hrest := ih (fun x hx => h x (List.mem_cons_of_mem m hx))
    cases ho : m.outcome <;> simp [tryMethods, ho, hrest]
    exact absurd ho hm

/-- When no method ever changes the active item, the attempt loop runs
every method of every attempt and fails with reason all_methods_failed. -/
theorem runAttempts_no_change (ms : List MockMethod)
    (h : ∀ m ∈ ms, m.outcome ≠ MethodOutcome.changes) (r a : Nat) :
    runAttempts ms r a =
      ({ success := false, reason := some "all_methods_failed" },
        repTrace r (ms.map MockMethod.name)) := by
  induction r generalizing a with
  | zero => rfl
  | succ k ih =>
    simp [runAttempts, tryMethods_no_change a ms h, ih (a + 1), repTrace]

/-- Claim C2, counterexample: a re-entrant call while the lock is held
returns success false, but its reason is the string scroll_locked, not the
string locked the claim states. -/
theorem scrollLocked_reason_cx :
    (scrollToNext 3 [⟨"m1", MethodOutcome.changes⟩] true).1.reason =
        some "scroll_locked" ∧
      (scrollToNext 3 [⟨"m1", MethodOutcome.changes⟩] true).1.reason ≠
        some "locked" :=
  ⟨rfl, by decide⟩

/-- Claim C2, amended: a call to the advance operation while the boolean
scroll lock is held returns immediately with success false and reason
scroll_locked and executes no advance method (the trace of executed
methods is empty), so two advance executions never overlap. -/
theorem scrollToNext_locked_rejects (r : Nat) (ms : List MockMethod) :
    scrollToNext r ms true =
      ({ success := false, reason := some "scroll_locked", method := none,
          attempt := none }, []) := rfl

/-- Claim C6: with a first method that never changes the active item and a
second that always does, under a retry budget of two the orchestrator
succeeds with the second method on attempt one, and the execution trace
stops at the succeeding method: no third method and no second attempt. -/
theorem orchestrator_second_method (n₁ n₂ : String) :
    scrollToNext 2 [⟨n₁, MethodOutcome.noChange⟩, ⟨n₂, MethodOutcome.changes⟩] false =
      ({ success := true, method := some n₂, attempt := some 1 }, [n₁, n₂]) := rfl

/-- Claim C9: a method execution exception is caught per method and does
not abort the run. When no method changes the active item, the trace is
every method of every attempt, throwing methods included, and when a
throwing method is followed by a changing one, the changing one is still
executed and the run succeeds with it. -/
theorem methodExceptions_caught (r : Nat) (ms : List MockMethod) (m₁ m₂ : MockMethod)
    (hms : ∀ m ∈ ms, m.outcome ≠ MethodOutcome.changes)
    (h₁ : m₁.outcome = MethodOutcome.throws) (h₂ : m₂.outcome = MethodOutcome.changes) :
    (scrollToNext r ms false).1.success = false ∧
      (scrollToNext r ms false).2 = repTrace r (ms.map MockMethod.name) ∧
      scrollToNext (r + 1) [m₁, m₂] false =
        ({ success := true, method := some m₂.name, attempt := some 1 },
          [m₁.name, m₂.name]) := by
  refine ⟨?_, ?_, ?_⟩
  · simp [scrollToNext, runAttempts_no_change ms hms r 0]
  · simp [scrollToNext, runAttempts_no_change ms hms r 0]
  · simp [scrollToNext, runAttempts, tryMethods, h₁, h₂]

/-- Claim C9, witness at a concrete throwing adapter. -/
theorem methodExceptions_caught_w :
    (scrollToNext 2 [⟨"m1", MethodOutcome.throws⟩] false).1.success = false ∧
      (scrollToNext 2 [⟨"m1", MethodOutcome.throws⟩] false).2 =
        repTrace 2 (List.map MockMethod.name [⟨"m1", MethodOutcome.throws⟩]) ∧
      scrollToNext (2 + 1)
          [⟨"boom", MethodOutcome.throws⟩, ⟨"go", MethodOutcome.changes⟩] false =
        ({ success := true, method := some "go", attempt := some 1 },
          ["boom", "go"]) :=
  methodExceptions_caught 2 [⟨"m1", MethodOutcome.throws⟩]
    ⟨"boom", MethodOutcome.throws⟩ ⟨"go", MethodOutcome.changes⟩ (by decide) rfl rfl

/-- Invariant of the best-candidate fold of InstagramAdapter._findBestVideo:
any candidate the accumulator ever holds either came from the accumulator
or passed the minimum-size filter and belongs to the traversed list. -/
theorem igFold_some (vw : Viewport) (Q : VideoEl → Prop) :
    ∀ (l : List VideoEl) (acc : Option VideoEl × ℚ),
      (∀ u, acc.1 = some u → Q u) →
      (∀ v ∈ l, ¬(v.rect.width < 100 ∨ v.rect.height < 100) → Q v) →
      ∀ u, (l.foldl (igStep vw) acc).1 = some u → Q u := by
  intro l
  induction l with
  | nil => intro acc hacc _ u hu; exact hacc u hu
  | cons v rest ih =>
    intro acc hacc hl u hu
    rw [List.foldl_cons] at hu
    refine ih (igStep vw acc v) ?_
      (fun x hx hbig => hl x (List.mem_cons_of_mem v hx) hbig) u hu
    intro w hw
    unfold igStep at hw
    split at hw
    · exact hacc w hw
    · next hsize =>
      split at hw
      · have hvw : v = w := by simpa using hw
        subst hvw
        exact hl v (List.mem_cons_self v rest) hsize
      · exact hacc w hw

/-- Invariant of the best-candidate fold of BaseAdapter.findActiveVideo:
any candidate the accumulator ever holds either came from the accumulator
or belongs to the traversed list. -/
theorem baseFold_some (vw : Viewport) (Q : VideoEl → Prop) :
    ∀ (l : List VideoEl) (acc : Option VideoEl × ℚ),
      (∀ u, acc.1 = some u → Q u) →
      (∀ v ∈ l, Q v) →
      ∀ u, (l.foldl (baseStep vw) acc).1 = some u → Q u := by
  intro l
  induction l with
  | nil => intro acc hacc _ u hu; exact hacc u hu
  | cons v rest ih =>
    intro acc hacc hl u hu
    rw [List.foldl_cons] at hu
    refine ih (baseStep vw acc v) ?_
      (fun x hx => hl x (List.mem_cons_of_mem v hx)) u hu
    intro w hw
    unfold baseStep at hw
    split at hw
    · have hvw : v = w := by simpa using hw
      subst hvw
      exact hl v (List.mem_cons_self v rest)
    · exact hacc w hw

/-- Claim C7: each active-item selector returns either none or an element
of its input candidate list, for the Instagram selector of the content
script and the BaseAdapter selector alike; neither fabricates an item. -/
theorem selectActive_mem (vw : Viewport) (l : List VideoEl) :
    (igFindBestVideo vw l = none ∨ ∃ v ∈ l, igFindBestVideo vw l = some v) ∧
      (findActiveVideo vw l = none ∨ ∃ v ∈ l, findActiveVideo vw l = some v) := by
  constructor
  · cases hres : igFindBestVideo vw l with
    | none => exact Or.inl rfl
    | some u =>
      refine Or.inr ⟨u, ?_, rfl⟩
      unfold igFindBestVideo at hres
      split at hres
      · exact igFold_some vw (· ∈ l) l (none, 0)
          (fun x h => Option.noConfusion h) (fun v hv _ => hv) u hres
      · exact Option.noConfusion hres
  · cases hres : findActiveVideo vw l with
    | none => exact Or.inl rfl
    | some u =>
      refine Or.inr ⟨u, ?_, rfl⟩
      unfold findActiveVideo at hres
      split at hres
      · exact Option.noConfusion hres
      · split at hres
        · cases l with
          | nil => exact Option.noConfusion hres
          | cons a t =>
            have hau : a = u := by simpa using hres
            subst hau
            exact List.mem_cons_self a t
        · split at hres
          · exact baseFold_some vw (· ∈ l) l (none, 0)
              (fun x h => Option.noConfusion h) (fun v hv => hv) u hres
          · exact Option.noConfusion hres

/-- Claim C4, counterexample: a playing candidate with a valid duration
whose rectangle lies entirely below the viewport is not scored zero by the
Instagram scorer of the content script: the playing and duration bonuses
still apply (score 0.4), it clears the 0.3 acceptance threshold, and the
selector returns it. This refutes the claim that candidates entirely
outside the viewport score zero and are excluded before weighting. -/
theorem igOffscreen_selected_cx :
    igFindBestVideo vwEx [vOffscreen] = some vOffscreen ∧
      vOffscreen.rect.top > vwEx.height ∧
      igScore vwEx vOffscreen = 2/5 := by
  refine ⟨?_, by norm_num [vOffscreen, vwEx], ?_⟩ <;>
    norm_num [igFindBestVideo, igStep, igScore, vwEx, vOffscreen, min_def, max_def,
      abs_of_nonneg]

/-- Claim C4, amended: the BaseAdapter scorer assigns score zero to any
candidate entirely outside the viewport or of zero width or height before
any weighted bonus applies, and the Instagram selector of the content
script excludes candidates below the 100 by 100 minimum size before
weighting (it never returns one); however a candidate entirely outside the
viewport can still earn the Instagram playing and duration bonuses and be
selected. -/
theorem scorer_excludes_amended :
    (∀ (vw : Viewport) (v : VideoEl),
        v.rect.bottom < 0 ∨ v.rect.top > vw.height ∨ v.rect.rght < 0 ∨
            v.rect.left > vw.width ∨ v.rect.width = 0 ∨ v.rect.height = 0 →
        scoreVideo vw v = 0) ∧
      (∀ (vw : Viewport) (l : List VideoEl) (v : VideoEl),
        igFindBestVideo vw l = some v →
        100 ≤ v.rect.width ∧ 100 ≤ v.rect.height) := by
  constructor
  · intro vw v h
    unfold scoreVideo
    split
    · rfl
    · next h1 =>
      split
      · rfl
      · next h2 =>
        split
        · rfl
        · next h3 =>
          exfalso
          rcases h with h | h | h | h | h | h
          · exact h1 (Or.inl h)
          · exact h1 (Or.inr h)
          · exact h2 (Or.inl h)
          · exact h2 (Or.inr h)
          · exact h3 (Or.inl h)
          · exact h3 (Or.inr h)
  · intro vw l v hres
    have hQ : ¬(v.rect.width < 100 ∨ v.rect.height < 100) := by
      unfold igFindBestVideo at hres
      split at hres
      · exact igFold_some vw (fun x => ¬(x.rect.width < 100 ∨ x.rect.height < 100)) l
          (none, 0) (fun x h => Option.noConfusion h) (fun x _ hx => hx) v hres
      · exact Option.noConfusion hres
    push_neg at hQ
    exact hQ

/-- Claim C4, amended, witness: an entirely-above-viewport candidate gets
base score zero, and a concrete selected Instagram candidate meets the
minimum size. -/
theorem scorer_excludes_amended_w :
    scoreVideo vwEx vAboveView = 0 ∧
      (100 ≤ vOffscreen.rect.width ∧ 100 ≤ vOffscreen.rect.height) :=
  ⟨scorer_excludes_amended.1 vwEx vAboveView (Or.inl (by norm_num [vAboveView])),
    scorer_excludes_amended.2 vwEx [vOffscreen] vOffscreen (by
      norm_num [igFindBestVideo, igStep, igScore, vwEx, vOffscreen, min_def, max_def,
        abs_of_nonneg])⟩

/-- Claim C8: with the tab backgrounded, the safety gate denies with
reason tab_inactive when stopOnTabInactive is on, and allows when
stopOnTabInactive is off provided no other suppression condition is
active (no manual-scroll suppression, no interaction suppression, and the
manual-scroll cooldown elapsed whenever that option is on). -/
theorem safetyGate_tabInactive (o : SafetyOptions) (s : SafetyState) (now : Nat)
    (hbg : s.tabActive = false) :
    (o.stopOnTabInactive = true →
        canAutoScroll o s now = { allowed := false, reason := some "tab_inactive" }) ∧
      (o.stopOnTabInactive = false →
        (o.stopOnManualScroll = true → s.userScrolling = false) →
        (o.pauseOnInteraction = true → s.userInteracting = false) →
        (o.stopOnManualScroll = true →
          o.manualScrollCooldown ≤ now - s.lastManualScrollTime) →
        canAutoScroll o s now = { allowed := true, reason := none }) := by
  constructor
  · intro hopt
    unfold canAutoScroll
    rw [if_pos ⟨hopt, hbg⟩]
  · intro hopt h1 h2 h3
    unfold canAutoScroll
    rw [if_neg (by simp [hopt]),
      if_neg (by rintro ⟨ha, hb⟩; rw [h1 ha] at hb; exact Bool.noConfusion hb),
      if_neg (by rintro ⟨ha, hb⟩; rw [h2 ha] at hb; exact Bool.noConfusion hb),
      if_neg (by rintro ⟨ha, hb⟩; exact absurd hb (not_lt.mpr (h3 ha)))]

/-- Claim C8, witness at a backgrounded state with both option values. -/
theorem safetyGate_tabInactive_w :
    canAutoScroll soOn stBg 5000 = { allowed := false, reason := some "tab_inactive" } ∧
      canAutoScroll soOff stBg 5000 = { allowed := true, reason := none } :=
  ⟨(safetyGate_tabInactive soOn stBg 5000 rfl).1 rfl,
    (safetyGate_tabInactive soOff stBg 5000 rfl).2 rfl (fun h => Bool.noConfusion h)
      (fun h => Bool.noConfusion h) (fun _ => by decide)⟩

/-- When no method of the list changes the active item, one pass of the
content-script method loop reports no success (throwing methods are caught
and skipped). -/
theorem tryMethodsContent_no_change (ms : List MockMethod)
    (h : ∀ m ∈ ms, m.outcome ≠ MethodOutcome.changes) :
    tryMethodsContent ms = false := by
  induction ms with
  | nil => rfl
  | cons m rest ih =>
    have hm := h m (List.mem_cons_self m rest)
    have hrest := ih (fun x hx => h x (List.mem_cons_of_mem m hx))
    cases ho : m.outcome <;> simp [tryMethodsContent, ho, hrest]
    exact absurd ho hm

/-- When no method changes the active item, the whole content-script
attempt loop fails, for any attempt budget. -/
theorem attemptLoop_no_change (ms : List MockMethod)
    (h : ∀ m ∈ ms, m.outcome ≠ MethodOutcome.changes) (k : Nat) :
    attemptLoop ms k = false := by
  induction k with
  | zero => rfl
  | succ n ih => simp [attemptLoop, tryMethodsContent_no_change ms h, ih]

/-- Claim C10: the testScroll branch of the message handler always
responds success true with the current scroll counter, and when every
advance method fails the counter is left unincremented, so the response
success field does not report the advance outcome. -/
theorem testScroll_success_true (ctx : TriggerCtx) (n : Nat) :
    (handleTestScroll ctx n).success = true ∧
      ((∀ m ∈ ctx.methods, m.outcome ≠ MethodOutcome.changes) →
        (handleTestScroll ctx n).scrollCount = n) := by
  refine ⟨rfl, ?_⟩
  intro h
  unfold handleTestScroll triggerAutoScroll
  rw [attemptLoop_no_change ctx.methods h]
  repeat' split
  all_goals first
    | rfl
    | simp_all

/-- Claim C10, witness at a context whose single method never changes the
active item. -/
theorem testScroll_success_true_w :
    (handleTestScroll ctx0 5).success = true ∧
      (handleTestScroll ctx0 5).scrollCount = 5 :=
  ⟨(testScroll_success_true ctx0 5).1, (testScroll_success_true ctx0 5).2 (by decide)⟩
